import Mathlib

/-
Verification of the datamapplot plotting orchestration
(datamapplot/create_plots.py) against its specification.

The two public entry points, create_plot and create_interactive_plot, are
shallowly embedded below.  Numeric data is modelled exactly: data-map
coordinates are rational pairs, and the floating-point size/alpha
heuristics are modelled over the reals.  The collaborator functions that
the module imports from other files of the package
(palette_from_datamap, palette_from_cmap_and_datamap, deep_palette,
pastel_palette, medoid, render_plot, render_html, matplotlib's to_rgb) are
not part of the source file under study; the specification treats them as
opaque library calls, and they are passed to the embedded entry points as
explicit function parameters collected in the Libs / ILibs structures.
-/

namespace DataMapPlot

/-- A 2D point of the data map, with exact rational coordinates. -/
abbrev Point : Type := ℚ × ℚ

/-- A colour, represented as its hex string exactly as in the Python code. -/
abbrev Color : Type := String

/-- An RGB triple of 0..255 channel values, as used by the interactive path. -/
abbrev RGB : Type := ℕ × ℕ × ℕ

/-- Lexicographic comparison of character lists by code point, the order
numpy sorts string arrays by.  (Lean's built-in String order is this same
relation; it is re-modelled structurally here so that the kernel can
evaluate it on concrete strings.) -/
def strLeAux : List Char → List Char → Bool
  | [], _ => true
  | _ :: _, [] => false
  | a :: as, b :: bs =>
    if a.toNat < b.toNat then true
    else if b.toNat < a.toNat then false
    else strLeAux as bs

/-- Lexicographic code-point order on strings. -/
def strLe (a b : String) : Bool := strLeAux a.data b.data

/-- Model of numpy's np.unique on a vector of strings: the sorted list of
the distinct values occurring in the input. -/
def npUnique (xs : List String) : List String :=
  (List.insertionSort (fun a b => strLe a b = true) xs).dedup

/-- The list comprehension of create_plots.py lines 159-161: the unique
labels, in np.unique's sorted order, with the noise label removed. -/
def unique_non_noise_labels (labels : List String) (noise_label : String) :
    List String :=
  (npUnique labels).filter (fun l => l ≠ noise_label)

/-- Boolean-mask row selection, as in data_map_coords[cluster_label_vector == i]:
the coordinate rows, in order, whose parallel label equals l. -/
def rowsWithLabel (coords : List Point) (labels : List String) (l : String) :
    List Point :=
  ((coords.zip labels).filter (fun p => p.2 = l)).map Prod.fst

/-- Model of ndarray.mean(axis=0) on a list of 2D rows: the coordinatewise
mean.  (On an empty selection rational division by zero returns 0 where
numpy would return NaN; create_plot only ever takes the mean of the rows
of an observed label, which is a non-empty selection.) -/
def meanPoint (ps : List Point) : Point :=
  ((ps.map Prod.fst).sum / (ps.length : ℚ), (ps.map Prod.snd).sum / (ps.length : ℚ))

/-- Model of TextWrapper._munge_whitespace: every whitespace character is
replaced by a blank (replace_whitespace=True).  CPython first expands tabs
to 8-column stops; a tab is modelled here as one blank like the other
whitespace characters, and no property below involves tabs. -/
def mungeWhitespace (s : String) : String :=
  String.mk (s.data.map (fun c => if c.isWhitespace then ' ' else c))

/-- Chunking of the munged text into maximal runs of blanks and of
non-blank characters, textwrap's chunk list.  (textwrap's optional
hyphen-based splitting of words, break_on_hyphens, is not modelled; no
property below involves hyphenated words.)  The first argument is the kind
of the current run (true for a blank run), the second the current run's
characters in reverse. -/
def runAux : Bool → List Char → List Char → List String
  | _, acc, [] => [String.mk acc.reverse]
  | kind, acc, c :: cs =>
    if (decide (c = ' ')) = kind then runAux kind (c :: acc) cs
    else String.mk acc.reverse :: runAux (decide (c = ' ')) [c] cs

/-- The chunk list of a text: maximal runs of blanks and non-blanks of the
munged text. -/
def splitChunks (s : String) : List String :=
  match (mungeWhitespace s).data with
  | [] => []
  | c :: cs => runAux (decide (c = ' ')) [c] cs

/-- A chunk consisting only of blanks, textwrap's chunk.strip() == ''.
(After munging, every whitespace character is a blank.) -/
def chunkIsSpace (c : String) : Bool :=
  c.data.all (fun ch => ch = ' ')

/-- The greedy inner loop of TextWrapper._wrap_chunks: starting from the
current line length, take further chunks while they fit in the width;
return the taken chunks and the remaining ones. -/
def takeLine (w : ℕ) : ℕ → List String → List String × List String
  | _, [] => ([], [])
  | curLen, c :: cs =>
    if curLen + c.length ≤ w then
      let pr := takeLine w (curLen + c.length) cs
      (c :: pr.1, pr.2)
    else ([], c :: cs)

/-- Drop the trailing chunk of a finished line when it is whitespace
(drop_whitespace=True); at most one trailing chunk can be whitespace since
chunks alternate between blank and non-blank runs. -/
def dropTrailingSpace (line : List String) : List String :=
  match line.getLast? with
  | some c => if chunkIsSpace c then line.dropLast else line
  | none => []

/-- The outer per-line loop of TextWrapper._wrap_chunks with
drop_whitespace=True and break_long_words=False.  Per iteration: a leading
whitespace chunk is dropped only when at least one line was already
emitted (never at the very beginning of the text); otherwise, when the
head chunk fits in the width, the line is filled greedily from it; a head
chunk wider than the width goes on a line of its own unbroken; in either
case the line's trailing whitespace chunk is dropped and the line is
emitted only when non-empty.  Each iteration consumes at least the head
chunk, so the chunk-count fuel of the first argument never runs out when
it starts at the chunk count: the fuel drops by exactly one per iteration
and the chunk list shrinks by at least one. -/
def wrapChunksAux (w : ℕ) : ℕ → List String → Bool → List String
  | 0, _, _ => []
  | _ + 1, [], _ => []
  | fuel + 1, c :: cs, started =>
    if started = true ∧ chunkIsSpace c = true then
      wrapChunksAux w fuel cs started
    else if c.length ≤ w then
      let pr := takeLine w c.length cs
      match dropTrailingSpace (c :: pr.1) with
      | [] => wrapChunksAux w fuel pr.2 started
      | line => String.join line :: wrapChunksAux w fuel pr.2 true
    else
      match dropTrailingSpace [c] with
      | [] => wrapChunksAux w fuel cs started
      | line => String.join line :: wrapChunksAux w fuel cs true

/-- The wrapped lines of a text. -/
def wrapChunks (w : ℕ) (chunks : List String) : List String :=
  wrapChunksAux w chunks.length chunks false

/-- Model of Python textwrap.fill(x, width=w, break_long_words=False) as
called by create_plots.py: the text is munged, split into whitespace and
word chunks, the chunks are packed greedily into lines of at most the
given width by the rules of wrapChunksAux, and the lines are joined with
newlines. -/
def textwrapFill (width : ℕ) (s : String) : String :=
  String.intercalate "\n" (wrapChunks width (splitChunks s))

/-- Total model of a Python dict access d[k] on a string-keyed colour dict:
a missing key, which raises KeyError in Python, is modelled by a sentinel
value.  The Except-based model pyDictGet below captures the raising
behaviour itself; theorems that rely on a value of dictGet always carry
the hypothesis that the key is present. -/
def dictGet (m : List (String × Color)) (k : String) : Color :=
  (List.lookup k m).getD ("KeyError: " ++ k)

/-- Python dict access as a fallible operation: a present key returns its
value and a missing key raises KeyError carrying the key. -/
def pyDictGet (m : List (String × Color)) (k : String) : Except String Color :=
  match List.lookup k m with
  | some v => Except.ok v
  | none => Except.error k

/-- Left-to-right evaluation of a Python list comprehension whose element
expression may raise: the first exception aborts the whole comprehension. -/
def mapExcept (f : String → Except String Color) :
    List String → Except String (List Color)
  | [] => Except.ok []
  | x :: xs =>
    match f x with
    | Except.error e => Except.error e
    | Except.ok c =>
      match mapExcept f xs with
      | Except.error e => Except.error e
      | Except.ok cs => Except.ok (c :: cs)

/-- The collaborator functions create_plots.py imports from the rest of the
package and from matplotlib.  They are outside the source file under
study and are treated as opaque: every embedded entry point takes them as
parameters. -/
structure Libs where
  medoid : List Point → Point
  palette_from_datamap : List Point → List Point → ℚ → ℚ → List Color
  palette_from_cmap_and_datamap : String → List Point → List Point → ℚ → List Color
  deep_palette : List Color → List Color
  pastel_palette : List Color → List Color
  to_rgb : Color → ℚ × ℚ × ℚ

/-- The keyword arguments of create_plot that are inspected by its body:
point_size and alpha (popped when present), label_font_size (read with a
default), and the remaining keyword arguments, forwarded untouched. -/
structure RenderPlotKwds where
  point_size : Option ℝ := none
  alpha : Option ℝ := none
  label_font_size : Option ℝ := none
  others : List (String × ℝ) := []

/-- The argument tuple create_plot passes to render_plot (create_plots.py
lines 274-294).  render_plot itself lives in plot_rendering.py and is an
opaque collaborator; create_plot's result is render_plot applied to this
record. -/
structure RenderPlotArgs where
  data_map_coords : List Point
  color_list : List Color
  label_text : List String
  label_locations : List Point
  title : Option String
  sub_title : Option String
  point_size : ℝ
  alpha : ℝ
  label_text_colors : Option (List Color)
  label_arrow_colors : Option (List Color)
  highlight_colors : List Color
  figsize : ℚ × ℚ
  noise_color : Color
  label_size_adjustments : List ℝ
  dpi : ℚ
  force_matplotlib : Bool
  darkmode : Bool
  highlight_labels : Option (List String)
  kwds_rest : RenderPlotKwds

/-- Cluster anchor positions, create_plots.py lines 162-175: one anchor per
unique non-noise label, the medoid of the label's rows when use_medoids
and their coordinatewise mean otherwise. -/
def label_locations_of (libs : Libs) (coords : List Point) (labels : List String)
    (noise_label : String) (use_medoids : Bool) : List Point :=
  if use_medoids then
    (unique_non_noise_labels labels noise_label).map
      (fun l => libs.medoid (rowsWithLabel coords labels l))
  else
    (unique_non_noise_labels labels noise_label).map
      (fun l => meanPoint (rowsWithLabel coords labels l))

/-- The palette-generation step of create_plot, lines 188-201: when no cmap
is supplied the palette comes from palette_from_datamap, otherwise from
palette_from_cmap_and_datamap. -/
def generated_palette (libs : Libs) (data_map_coords : List Point)
    (label_locations : List Point) (hue_shift : ℚ) (radius_weight_power : ℚ)
    (cmap : Option String) : List Color :=
  match cmap with
  | none =>
    libs.palette_from_datamap data_map_coords label_locations hue_shift
      radius_weight_power
  | some c =>
    libs.palette_from_cmap_and_datamap c data_map_coords label_locations
      radius_weight_power

/-- The colour assigned to one label by the auto-generated colour map,
lines 205-216: the palette entry at the label's index among the unique
non-noise labels, and the noise colour for any other label (in the code,
a label outside label_to_index_map). -/
def auto_label_color (palette : List Color) (u : List String)
    (noise_color : Color) (x : String) : Color :=
  match u.indexOf? x with
  | some i => palette.getD i ("IndexError: " ++ toString i)
  | none => noise_color

/-- The auto-generated label_color_map of create_plot, lines 209-216: a dict
keyed by every unique observed label. -/
def auto_label_color_map (palette : List Color) (labels : List String)
    (noise_label : String) (noise_color : Color) : List (String × Color) :=
  (npUnique labels).map
    (fun x => (x, auto_label_color palette (unique_non_noise_labels labels noise_label)
      noise_color x))

/-- The per-point colour list of create_plot: lines 205-208 in the
auto-generated branch and lines 218-221 in the user-supplied branch. -/
def plot_color_list (palette : List Color) (label_color_map : Option (List (String × Color)))
    (labels : List String) (noise_label : String) (noise_color : Color) : List Color :=
  match label_color_map with
  | none =>
    labels.map
      (fun x => auto_label_color palette (unique_non_noise_labels labels noise_label)
        noise_color x)
  | some m =>
    labels.map (fun x => if x ≠ noise_label then dictGet m x else noise_color)

/-- The label colour map in force after lines 186-221: the user-supplied
dict when given, and the auto-generated one otherwise. -/
def plot_label_color_map (palette : List Color)
    (label_color_map : Option (List (String × Color))) (labels : List String)
    (noise_label : String) (noise_color : Color) : List (String × Color) :=
  match label_color_map with
  | none => auto_label_color_map palette labels noise_label noise_color
  | some m => m

/-- Model of np.clip(x, lo, hi): x clamped into the interval, with the
upper bound winning when the bounds cross. -/
noncomputable def npClip (x lo hi : ℝ) : ℝ := min (max x lo) hi

/-- The magic_number of create_plot line 260:
np.clip(128 * 4 ** (-log10(n_points)), 0.05, 64). -/
noncomputable def magic_number (n_points : ℕ) : ℝ :=
  npClip (128 * (4 : ℝ) ^ (-(Real.logb 10 (n_points : ℝ)))) 0.05 64

/-- The point-size and alpha heuristics of create_plot lines 257-266, as a
closed-form function of the point count, figsize and dpi (together with
the force_matplotlib flag choosing the branch). -/
noncomputable def plot_point_size_alpha (n_points : ℕ) (figsize : ℚ × ℚ)
    (dpi : ℚ) (force_matplotlib : Bool) : ℝ × ℝ :=
  if n_points < 100000 ∨ force_matplotlib then
    let point_scale_factor : ℝ := Real.sqrt ((figsize.1 : ℝ) * (figsize.2 : ℝ))
    (magic_number n_points * (point_scale_factor / 2),
      npClip (magic_number n_points) 0.05 1)
  else
    (((⌊Real.sqrt ((figsize.1 : ℝ) * (figsize.2 : ℝ)) * (dpi : ℝ)⌋ / 2048 : ℤ) : ℝ),
      1)

/-- The count of occurrences of one label, the entry of
pd.Series(labels).value_counts() at that label. -/
def count_label (labels : List String) (l : String) : ℕ :=
  (labels.filter (fun x => x = l)).length

/-- Minimum of a list of reals (0 on the empty list; the code only takes
the minimum of the value counts of a non-empty label vector). -/
noncomputable def listMinR : List ℝ → ℝ
  | [] => 0
  | x :: xs => xs.foldl min x

/-- Maximum of a list of reals (0 on the empty list). -/
noncomputable def listMaxR : List ℝ → ℝ
  | [] => 0
  | x :: xs => xs.foldl max x

/-- The dynamic label-size adjustment of create_plot lines 243-250 as a
function of one label: sqrt of the label's count, shifted by the minimum
over all observed labels, normalised by the maximum of the shifted values,
scaled by label_font_size + 2 and lowered by 2. -/
noncomputable def label_size_adjustment_dyn (labels : List String)
    (base_font_size : ℝ) (l : String) : ℝ :=
  let counts := (npUnique labels).map (fun x => Real.sqrt ((count_label labels x : ℝ)))
  let mn := listMinR counts
  let mx := listMaxR (counts.map (fun c => c - mn))
  (Real.sqrt ((count_label labels l : ℝ)) - mn) / mx * (base_font_size + 2) - 2

/-- The label_size_adjustments list of create_plot lines 242-255: the
dynamic per-label adjustments indexed by the unique non-noise labels when
dynamic_label_size, and zeros otherwise. -/
noncomputable def label_size_adjustments_of (labels : List String)
    (noise_label : String) (dynamic_label_size : Bool) (figsize : ℚ × ℚ)
    (kwds : RenderPlotKwds) : List ℝ :=
  if dynamic_label_size then
    let font_scale_factor := Real.sqrt ((figsize.1 : ℝ) * (figsize.2 : ℝ))
    (unique_non_noise_labels labels noise_label).map
      (label_size_adjustment_dyn labels (kwds.label_font_size.getD font_scale_factor))
  else
    List.replicate (unique_non_noise_labels labels noise_label).length 0

/-- Shallow embedding of create_plot (create_plots.py lines 23-296), up to
the call to render_plot: the record of arguments the function hands to
render_plot.  The collaborator functions are the Libs parameter; all other
parameters follow the Python signature. -/
noncomputable def create_plot (libs : Libs) (data_map_coords : List Point)
    (labels : List String) (title : Option String) (sub_title : Option String)
    (noise_label : String) (noise_color : Color) (color_label_text : Bool)
    (color_label_arrows : Bool) (label_wrap_width : ℕ)
    (label_color_map : Option (List (String × Color))) (figsize : ℚ × ℚ)
    (dynamic_label_size : Bool) (dpi : ℚ) (force_matplotlib : Bool)
    (darkmode : Bool) (highlight_labels : Option (List String))
    (palette_hue_shift : ℚ) (palette_hue_radius_dependence : ℚ)
    (use_medoids : Bool) (cmap : Option String)
    (marker_color_array : Option (List Color))
    (render_plot_kwds : RenderPlotKwds) : RenderPlotArgs :=
  let u := unique_non_noise_labels labels noise_label
  let label_locations :=
    label_locations_of libs data_map_coords labels noise_label use_medoids
  let label_text := u.map (textwrapFill label_wrap_width)
  let highlight_labels_wrapped :=
    highlight_labels.map (fun hs => hs.map (textwrapFill label_wrap_width))
  let palette :=
    generated_palette libs data_map_coords label_locations palette_hue_shift
      palette_hue_radius_dependence cmap
  let color_list :=
    plot_color_list palette label_color_map labels noise_label noise_color
  let lcm := plot_label_color_map palette label_color_map labels noise_label noise_color
  let color_list :=
    match marker_color_array with
    | some a => a
    | none => color_list
  let label_colors := u.map (fun x => dictGet lcm x)
  let label_text_colors :=
    if color_label_text then
      if darkmode then some (libs.pastel_palette label_colors)
      else some (libs.deep_palette label_colors)
    else none
  let label_arrow_colors := if color_label_arrows then some label_colors else none
  let label_size_adjustments :=
    label_size_adjustments_of labels noise_label dynamic_label_size figsize
      render_plot_kwds
  let n_points := data_map_coords.length
  let psa := plot_point_size_alpha n_points figsize dpi force_matplotlib
  let point_size := psa.1
  let alpha := psa.2
  let pair :=
    match render_plot_kwds.point_size with
    | some v => (v, { render_plot_kwds with point_size := none })
    | none => (point_size, render_plot_kwds)
  let point_size := pair.1
  let kwds := pair.2
  let pair2 :=
    match kwds.alpha with
    | some v => (v, { kwds with alpha := none })
    | none => (alpha, kwds)
  let alpha := pair2.1
  let kwds := pair2.2
  { data_map_coords := data_map_coords
    color_list := color_list
    label_text := label_text
    label_locations := label_locations
    title := title
    sub_title := sub_title
    point_size := point_size
    alpha := alpha
    label_text_colors := if color_label_text then label_text_colors else none
    label_arrow_colors := if color_label_arrows then label_arrow_colors else none
    highlight_colors := u.map (fun x => dictGet lcm x)
    figsize := figsize
    noise_color := noise_color
    label_size_adjustments := label_size_adjustments
    dpi := dpi
    force_matplotlib := force_matplotlib
    darkmode := darkmode
    highlight_labels := highlight_labels_wrapped
    kwds_rest := kwds }

/-- create_plot's return statement, lines 274-296: the value of create_plot
is render_plot applied to the argument record, for whatever render_plot
function the package links against. -/
noncomputable def create_plot_run {α : Type} (render_plot : RenderPlotArgs → α)
    (libs : Libs) (data_map_coords : List Point) (labels : List String)
    (title : Option String) (sub_title : Option String) (noise_label : String)
    (noise_color : Color) (color_label_text : Bool) (color_label_arrows : Bool)
    (label_wrap_width : ℕ) (label_color_map : Option (List (String × Color)))
    (figsize : ℚ × ℚ) (dynamic_label_size : Bool) (dpi : ℚ)
    (force_matplotlib : Bool) (darkmode : Bool)
    (highlight_labels : Option (List String)) (palette_hue_shift : ℚ)
    (palette_hue_radius_dependence : ℚ) (use_medoids : Bool)
    (cmap : Option String) (marker_color_array : Option (List Color))
    (render_plot_kwds : RenderPlotKwds) : α :=
  render_plot
    (create_plot libs data_map_coords labels title sub_title noise_label
      noise_color color_label_text color_label_arrows label_wrap_width
      label_color_map figsize dynamic_label_size dpi force_matplotlib darkmode
      highlight_labels palette_hue_shift palette_hue_radius_dependence
      use_medoids cmap marker_color_array render_plot_kwds)

/-- Model of tuple(int(c * 255) for c in to_rgb(color)): matplotlib's
to_rgb (an opaque collaborator, returning channels in the unit interval)
followed by the source's scaling to integer 0..255 channels; int()
truncation on a non-negative value is the floor. -/
def int255 (q : ℚ) : ℕ := (⌊q * 255⌋).toNat

/-- Scale a to_rgb result to an integer RGB triple as the source does. -/
def to_rgb255 (to_rgb : Color → ℚ × ℚ × ℚ) (c : Color) : RGB :=
  (int255 (to_rgb c).1, int255 (to_rgb c).2.1, int255 (to_rgb c).2.2)

/-- Total model of a Python dict access on the interactive colour map; as
with dictGet, the KeyError a missing key would raise is modelled by a
sentinel value that no proved property depends on. -/
def rgbDictGet (m : List (String × RGB)) (k : String) : RGB :=
  (List.lookup k m).getD (0, 0, 0)

/-- Modelled from the spec: label_text_and_polygon_dataframes lives in
interactive_rendering.py, which is not under src/.  Per the spec's data
model ("Label dataframe: per multi-resolution label-layer, one row per
cluster with anchor coordinates, optional boundary polygon, and resolved
RGBA color", clusters being the groups of points sharing a non-noise
label, with anchor mean or medoid), it yields one row per unique
non-noise label of the layer carrying that cluster's anchor position.
Boundary polygons are opaque to every claim and are not modelled, so the
cluster_polygons and alpha arguments are accepted and ignored. -/
def label_text_and_polygon_dataframes (libs : Libs) (labels : List String)
    (data_map_coords : List Point) (noise_label : String) (use_medoids : Bool)
    (_cluster_polygons : Bool) (_alpha : ℚ) : List (String × Point) :=
  (unique_non_noise_labels labels noise_label).zip
    (label_locations_of libs data_map_coords labels noise_label use_medoids)

/-- The concatenated label dataframe rows of create_interactive_plot lines
426-438: the per-layer dataframes stacked with pd.concat. -/
def interactive_label_rows (libs : Libs) (label_layers : List (List String))
    (data_map_coords : List Point) (noise_label : String) (use_medoids : Bool)
    (cluster_boundary_polygons : Bool) (polygon_alpha : ℚ) :
    List (String × Point) :=
  (label_layers.map
    (fun labels =>
      label_text_and_polygon_dataframes libs labels data_map_coords noise_label
        use_medoids cluster_boundary_polygons polygon_alpha)).flatten

/-- The colour map of create_interactive_plot lines 440-477: in the
auto-generated branch the dataframe labels zipped with the generated
palette (scaled to 0..255 triples), and in the user-supplied branch the
given map with its colours scaled to 0..255 triples. -/
def interactive_color_map (libs : Libs)
    (label_color_map : Option (List (String × Color)))
    (data_map_coords : List Point) (rows : List (String × Point))
    (palette_hue_shift : ℚ) (palette_hue_radius_dependence : ℚ)
    (cmap : Option String) : List (String × RGB) :=
  match label_color_map with
  | none =>
    let palette :=
      generated_palette libs data_map_coords (rows.map Prod.snd) palette_hue_shift
        palette_hue_radius_dependence cmap
    (rows.map Prod.fst).zip (palette.map (to_rgb255 libs.to_rgb))
  | some m => m.map (fun p => (p.1, to_rgb255 libs.to_rgb p.2))

/-- The text palette of create_interactive_plot lines 455-495: the deep
(light mode) or pastel (dark mode) variant of the generated palette, or
of the user-supplied colours of the dataframe labels, scaled to 0..255
triples. -/
def interactive_text_palette (libs : Libs)
    (label_color_map : Option (List (String × Color)))
    (data_map_coords : List Point) (rows : List (String × Point))
    (palette_hue_shift : ℚ) (palette_hue_radius_dependence : ℚ)
    (cmap : Option String) (darkmode : Bool) : List RGB :=
  let base :=
    match label_color_map with
    | none =>
      generated_palette libs data_map_coords (rows.map Prod.snd) palette_hue_shift
        palette_hue_radius_dependence cmap
    | some m => rows.map (fun p => dictGet m p.1)
  if darkmode then (libs.pastel_palette base).map (to_rgb255 libs.to_rgb)
  else (libs.deep_palette base).map (to_rgb255 libs.to_rgb)

/-- The label dataframe of the interactive path: one column per pandas
column of create_interactive_plot's label_dataframe after lines 497-510. -/
structure LabelDataframe where
  label : List String
  x : List ℚ
  y : List ℚ
  r : List ℕ
  g : List ℕ
  b : List ℕ
  a : List ℕ

/-- Assembly of the final label dataframe, lines 497-510: the text palette
channels (or the constant 15 / 240 channels) as r, g, b, the constant 64
as a, and the label column wrapped. -/
def interactive_label_dataframe (rows : List (String × Point))
    (text_palette : List RGB) (color_label_text : Bool)
    (color_cluster_boundaries : Bool) (darkmode : Bool)
    (label_wrap_width : ℕ) : LabelDataframe :=
  { label := rows.map (fun p => textwrapFill label_wrap_width p.1)
    x := rows.map (fun p => p.2.1)
    y := rows.map (fun p => p.2.2)
    r :=
      if color_label_text ∨ color_cluster_boundaries then
        text_palette.map (fun c => c.1)
      else List.replicate rows.length (if darkmode then 240 else 15)
    g :=
      if color_label_text ∨ color_cluster_boundaries then
        text_palette.map (fun c => c.2.1)
      else List.replicate rows.length (if darkmode then 240 else 15)
    b :=
      if color_label_text ∨ color_cluster_boundaries then
        text_palette.map (fun c => c.2.2)
      else List.replicate rows.length (if darkmode then 240 else 15)
    a := List.replicate rows.length 64 }

/-- One pass of the colour-assignment loop body, lines 530-542, for a fixed
mask label l: color_vector[cluster_label_vector == label] = color_map[...],
i.e. every position whose label is l is overwritten with colour c. -/
def maskAssign (cv : List RGB) (labels : List String) (l : String) (c : RGB) :
    List RGB :=
  cv.zipWith (fun old lab => if lab = l then c else old) labels

/-- One iteration of the outer loop of lines 530-542 for one label layer.
The source first re-codes the layer's labels as integers through
label_map / label_unmap (with the noise label mapped to -1); that
re-coding is a bijective renaming, the mask cluster_label_vector ==
label_map[l] equals the direct string mask labels == l, and the iteration
list (label_unmap's keys minus the noise code, in insertion order) is
exactly the sorted unique non-noise labels of the layer.  The embedding
therefore iterates directly over unique_non_noise_labels with string
masks, assigning each cluster colour over its mask. -/
def apply_label_layer (color_map_get : String → RGB) (noise_label : String)
    (cv : List RGB) (labels : List String) : List RGB :=
  (unique_non_noise_labels labels noise_label).foldl
    (fun cv l => maskAssign cv labels l (color_map_get l)) cv

/-- The colour vector of lines 524-542: initialised to the noise colour for
every point, then each label layer applied in reversed order. -/
def interactive_color_vector (color_map_get : String → RGB) (noise_rgb : RGB)
    (n : ℕ) (label_layers : List (List String)) (noise_label : String) :
    List RGB :=
  (label_layers.reverse).foldl (apply_label_layer color_map_get noise_label)
    (List.replicate n noise_rgb)

/-- The colour vector actually used, lines 524-550: the layered assignment
when no marker_color_array is supplied, and the supplied colours scaled
to 0..255 triples otherwise. -/
def interactive_color_vector_of (to_rgb : Color → ℚ × ℚ × ℚ)
    (marker_color_array : Option (List Color)) (noise_color : Color)
    (n : ℕ) (label_layers : List (List String)) (noise_label : String)
    (color_map : List (String × RGB)) : List RGB :=
  match marker_color_array with
  | none =>
    interactive_color_vector (fun l => rgbDictGet color_map l)
      (to_rgb255 to_rgb noise_color) n label_layers noise_label
  | some arr => arr.map (to_rgb255 to_rgb)

/-- The point dataframe of the interactive path: one field per pandas
column of create_interactive_plot's point_dataframe, lines 512-555. -/
structure PointDataframe where
  x : List ℚ
  y : List ℚ
  hover_text : Option (List String)
  size : Option (List ℚ)
  r : List ℕ
  g : List ℕ
  b : List ℕ
  a : ℕ

/-- Assembly of the point dataframe, lines 512-555: coordinates, optional
hover text and marker sizes, and the colour-vector channels, with the
constant alpha 180. -/
def interactive_point_dataframe (data_map_coords : List Point)
    (hover_text : Option (List String)) (marker_size_array : Option (List ℚ))
    (color_vector : List RGB) : PointDataframe :=
  { x := data_map_coords.map Prod.fst
    y := data_map_coords.map Prod.snd
    hover_text := hover_text
    size := marker_size_array
    r := color_vector.map (fun c => c.1)
    g := color_vector.map (fun c => c.2.1)
    b := color_vector.map (fun c => c.2.2)
    a := 180 }

/-- The wrapped figure returned by the interactive path: the rendered HTML
string with the iframe width and height. -/
structure InteractiveFigure where
  html : String
  width : String
  height : ℕ

/-- The collaborators of the interactive entry point: those of create_plot
together with render_html from interactive_rendering.py, which consumes
the point dataframe, the label dataframe and the inline_data,
color_label_text and darkmode flags and produces the HTML string. -/
structure ILibs extends Libs where
  render_html : PointDataframe → LabelDataframe → Bool → Bool → Bool → String

/-- Shallow embedding of create_interactive_plot (create_plots.py lines
299-566).  With no label layer the function returns None (line 423-424);
otherwise it returns the InteractiveFigure wrapping the rendered HTML. -/
def create_interactive_plot (ilibs : ILibs) (data_map_coords : List Point)
    (label_layers : List (List String)) (hover_text : Option (List String))
    (inline_data : Bool) (noise_label : String) (noise_color : Color)
    (color_label_text : Bool) (label_wrap_width : ℕ)
    (label_color_map : Option (List (String × Color))) (width : String)
    (height : ℕ) (darkmode : Bool) (palette_hue_shift : ℚ)
    (palette_hue_radius_dependence : ℚ) (cmap : Option String)
    (marker_size_array : Option (List ℚ))
    (marker_color_array : Option (List Color)) (use_medoids : Bool)
    (cluster_boundary_polygons : Bool) (color_cluster_boundaries : Bool)
    (polygon_alpha : ℚ) : Option InteractiveFigure :=
  if label_layers.isEmpty then none
  else
    let rows :=
      interactive_label_rows ilibs.toLibs label_layers data_map_coords
        noise_label use_medoids cluster_boundary_polygons polygon_alpha
    let color_map :=
      interactive_color_map ilibs.toLibs label_color_map data_map_coords rows
        palette_hue_shift palette_hue_radius_dependence cmap
    let text_palette :=
      interactive_text_palette ilibs.toLibs label_color_map data_map_coords rows
        palette_hue_shift palette_hue_radius_dependence cmap darkmode
    let label_dataframe :=
      interactive_label_dataframe rows text_palette color_label_text
        color_cluster_boundaries darkmode label_wrap_width
    let color_vector :=
      interactive_color_vector_of ilibs.to_rgb marker_color_array noise_color
        data_map_coords.length label_layers noise_label color_map
    let point_dataframe :=
      interactive_point_dataframe data_map_coords hover_text marker_size_array
        color_vector
    some
      { html :=
          ilibs.render_html point_dataframe label_dataframe inline_data
            color_label_text darkmode
        width := width
        height := height }

/-- The label a point ends up coloured by: the label the point carries in
the first (finest) layer in which it is not the noise label. -/
def first_non_noise_label (label_layers : List (List String))
    (noise_label : String) (j : ℕ) : Option String :=
  label_layers.findSome?
    (fun labels =>
      match labels[j]? with
      | some l => if l ≠ noise_label then some l else none
      | none => none)

/-- Python dict access on the colour dict as a fallible computation over a
whole label vector: the per-point colour list of the user-supplied branch
(create_plots.py lines 218-221), with the KeyError a missing key raises
made explicit. -/
def color_list_checked (m : List (String × Color)) (labels : List String)
    (noise_label : String) (noise_color : Color) : Except String (List Color) :=
  mapExcept
    (fun x => if x ≠ noise_label then pyDictGet m x else Except.ok noise_color)
    labels

/-- The per-cluster base colours of line 226, [label_color_map[x] for x in
unique_non_noise_labels], with the KeyError a missing key raises made
explicit. -/
def label_colors_checked (m : List (String × Color)) (labels : List String)
    (noise_label : String) : Except String (List Color) :=
  mapExcept (fun x => pyDictGet m x) (unique_non_noise_labels labels noise_label)

/-- The user-supplied-map colour list of create_interactive_plot lines
483 and 492, [label_color_map[label] for label in label_dataframe.label],
with the KeyError a missing key raises made explicit. -/
def interactive_user_colors_checked (m : List (String × Color))
    (row_labels : List String) : Except String (List Color) :=
  mapExcept (fun x => pyDictGet m x) row_labels

/-- A concrete instantiation of the collaborator functions, used by the
closed witness and counterexample theorems.  Each collaborator satisfies
the library contracts the specification states: the palette functions
return one colour per anchor, and the deep and pastel variants return one
colour per base colour. -/
def libs0 : Libs :=
  { medoid := fun ps => ps.headD (0, 0)
    palette_from_datamap := fun _ locs _ _ => locs.map (fun _ => "#abcdef")
    palette_from_cmap_and_datamap := fun _ _ locs _ => locs.map (fun _ => "#123456")
    deep_palette := fun cs => cs
    pastel_palette := fun cs => cs
    to_rgb := fun _ => (1 / 2, 1 / 2, 1 / 2) }

/-- A concrete instantiation of the interactive collaborators. -/
def ilibs0 : ILibs :=
  { libs0 with render_html := fun _ _ _ _ _ => "<html>" }

instance strLe_isTotal : IsTotal String (fun a b => strLe a b = true) := by
  constructor
  have key : ∀ xs ys : List Char, strLeAux xs ys = true ∨ strLeAux ys xs = true := by
    intro xs
    induction xs with
    | nil => intro ys; left; rfl
    | cons x xs ih =>
      intro ys
      cases ys with
      | nil => right; rfl
      | cons y ys =>
        rcases Nat.lt_trichotomy x.toNat y.toNat with hlt | heq | hgt
        · left; simp [strLeAux, hlt]
        · rcases ih ys with h1 | h1
          · left; simp [strLeAux, heq, h1]
          · right; simp [strLeAux, heq, h1]
        · right; simp [strLeAux, hgt, Nat.lt_asymm hgt]
  intro a b
  exact key a.data b.data

instance strLe_isTrans : IsTrans String (fun a b => strLe a b = true) := by
  constructor
  have key : ∀ xs ys zs : List Char, strLeAux xs ys = true → strLeAux ys zs = true →
      strLeAux xs zs = true := by
    intro xs
    induction xs with
    | nil => intro ys zs _ _; rfl
    | cons x xs ih =>
      intro ys zs hxy hyz
      cases ys with
      | nil => simp [strLeAux] at hxy
      | cons y ys =>
        cases zs with
        | nil => simp [strLeAux] at hyz
        | cons z zs =>
          simp only [strLeAux] at hxy hyz ⊢
          rcases Nat.lt_trichotomy x.toNat y.toNat with h1 | h1 | h1
          · rcases Nat.lt_trichotomy y.toNat z.toNat with h2 | h2 | h2
            · simp [Nat.lt_trans h1 h2]
            · have hx : x.toNat < z.toNat := h2 ▸ h1
              simp [hx]
            · rw [if_neg (Nat.lt_asymm h2), if_pos h2] at hyz
              exact absurd hyz (by simp)
          · rcases Nat.lt_trichotomy y.toNat z.toNat with h2 | h2 | h2
            · have hx : x.toNat < z.toNat := h1 ▸ h2
              simp [hx]
            · rw [if_neg (by omega), if_neg (by omega)] at hxy
              rw [if_neg (by omega), if_neg (by omega)] at hyz
              rw [if_neg (by omega), if_neg (by omega)]
              exact ih ys zs hxy hyz
            · rw [if_neg (Nat.lt_asymm h2), if_pos h2] at hyz
              exact absurd hyz (by simp)
          · rw [if_neg (Nat.lt_asymm h1), if_pos h1] at hxy
            exact absurd hxy (by simp)
  intro a b c hab hbc
  exact key a.data b.data c.data hab hbc

theorem mem_npUnique {x : String} {xs : List String} : x ∈ npUnique xs ↔ x ∈ xs := by
  unfold npUnique
  rw [List.mem_dedup, List.mem_insertionSort]

theorem nodup_npUnique (xs : List String) : (npUnique xs).Nodup :=
  List.nodup_dedup _

theorem sorted_npUnique (xs : List String) :
    (npUnique xs).Sorted (fun a b => strLe a b = true) :=
  (List.sorted_insertionSort _ xs).sublist (List.dedup_sublist _)

theorem mem_unique_non_noise_labels {x : String} {labels : List String}
    {noise_label : String} :
    x ∈ unique_non_noise_labels labels noise_label ↔ x ∈ labels ∧ x ≠ noise_label := by
  unfold unique_non_noise_labels
  rw [List.mem_filter, mem_npUnique]
  simp

theorem nodup_unique_non_noise_labels (labels : List String) (noise_label : String) :
    (unique_non_noise_labels labels noise_label).Nodup :=
  (nodup_npUnique labels).filter _

theorem sorted_unique_non_noise_labels (labels : List String) (noise_label : String) :
    (unique_non_noise_labels labels noise_label).Sorted (fun a b => strLe a b = true) :=
  (sorted_npUnique labels).sublist (List.filter_sublist _)

theorem noise_not_mem_unique_non_noise_labels (labels : List String)
    (noise_label : String) :
    noise_label ∉ unique_non_noise_labels labels noise_label := by
  intro h
  exact (mem_unique_non_noise_labels.mp h).2 rfl

theorem lookup_map_pair (f : String → Color) (keys : List String) (l : String) :
    List.lookup l (keys.map (fun x => (x, f x))) =
      if l ∈ keys then some (f l) else none := by
  induction keys with
  | nil => rfl
  | cons k ks ih =>
    by_cases hk : l = k
    · subst hk
      simp [List.lookup]
    · have hb : (l == k) = false := beq_eq_false_iff_ne.mpr hk
      simp [List.lookup, hb, ih, List.mem_cons, hk]

theorem indexOf?_spec (u : List String) (l : String) (h : l ∈ u) :
    ∃ i, List.indexOf? l u = some i ∧ u[i]? = some l := by
  induction u with
  | nil => cases h
  | cons x xs ih =>
    rw [List.indexOf?_cons]
    by_cases hx : x = l
    · subst hx
      simp
    · have hmem : l ∈ xs := by
        rcases List.mem_cons.mp h with h' | h'
        · exact absurd h'.symm hx
        · exact h'
      obtain ⟨i, hi, hget⟩ := ih hmem
      refine ⟨i + 1, ?_, ?_⟩
      · simp [hx, hi]
      · simpa using hget

theorem auto_label_color_of_mem (palette : List Color) (u : List String)
    (noise_color : Color) (l : String) (h : l ∈ u)
    (hlen : palette.length = u.length) :
    ∃ i : ℕ, u[i]? = some l ∧
      some (auto_label_color palette u noise_color l) = palette[i]? := by
  obtain ⟨i, hidx, hget⟩ := indexOf?_spec u l h
  have hi : i < u.length := (List.getElem?_eq_some.mp hget).1
  have hip : i < palette.length := hlen ▸ hi
  refine ⟨i, hget, ?_⟩
  rw [auto_label_color, hidx]
  show some (palette.getD i ("IndexError: " ++ toString i)) = palette[i]?
  rw [List.getD_eq_getElem _ _ hip, List.getElem?_eq_getElem hip]

theorem auto_label_color_of_not_mem (palette : List Color) (u : List String)
    (noise_color : Color) (l : String) (h : l ∉ u) :
    auto_label_color palette u noise_color l = noise_color := by
  rw [auto_label_color]
  have : List.indexOf? l u = none := by
    rw [List.indexOf?_eq_none_iff]
    intro x hx
    simp only [beq_iff_eq]
    intro hxl
    exact h (hxl ▸ hx)
  rw [this]

theorem mapExcept_error (f : String → Except String Color) (xs : List String)
    (e : String) (h : mapExcept f xs = Except.error e) :
    ∃ x ∈ xs, f x = Except.error e := by
  induction xs with
  | nil => simp [mapExcept] at h
  | cons x xs ih =>
    rw [mapExcept] at h
    cases hfx : f x with
    | error e' =>
      rw [hfx] at h
      cases h
      exact ⟨x, List.mem_cons_self x xs, hfx⟩
    | ok c =>
      rw [hfx] at h
      cases hrest : mapExcept f xs with
      | error e' =>
        rw [hrest] at h
        cases h
        obtain ⟨y, hy, hfy⟩ := ih hrest
        exact ⟨y, List.mem_cons_of_mem x hy, hfy⟩
      | ok cs =>
        rw [hrest] at h
        cases h

theorem mapExcept_ok_of_forall (f : String → Except String Color)
    (g : String → Color) (xs : List String)
    (h : ∀ x ∈ xs, f x = Except.ok (g x)) :
    mapExcept f xs = Except.ok (xs.map g) := by
  induction xs with
  | nil => rfl
  | cons x xs ih =>
    rw [mapExcept, h x (List.mem_cons_self x xs),
      ih (fun y hy => h y (List.mem_cons_of_mem x hy))]
    rfl

theorem npClip_mem_Icc (x lo hi : ℝ) (h : lo ≤ hi) :
    npClip x lo hi ∈ Set.Icc lo hi := by
  constructor
  · exact le_min (le_max_right x lo) h
  · exact min_le_right _ _

theorem maskAssign_length (cv : List RGB) (labels : List String) (l : String)
    (c : RGB) (h : labels.length = cv.length) :
    (maskAssign cv labels l c).length = cv.length := by
  rw [maskAssign, List.length_zipWith, h, Nat.min_self]

theorem maskAssign_getElem? (cv : List RGB) (labels : List String) (l : String)
    (c : RGB) (j : ℕ) (p : RGB) (lab : String)
    (hcv : cv[j]? = some p) (hlab : labels[j]? = some lab) :
    (maskAssign cv labels l c)[j]? = some (if lab = l then c else p) := by
  have hj : j < cv.length := (List.getElem?_eq_some.mp hcv).1
  have hjl : j < labels.length := (List.getElem?_eq_some.mp hlab).1
  have h1 : cv[j] = p := by
    have := List.getElem?_eq_getElem hj
    rw [this] at hcv
    exact Option.some_injective _ hcv
  have h2 : labels[j] = lab := by
    have := List.getElem?_eq_getElem hjl
    rw [this] at hlab
    exact Option.some_injective _ hlab
  rw [maskAssign, List.getElem?_zipWith]
  rw [List.getElem?_eq_getElem hj, List.getElem?_eq_getElem hjl, h1, h2]

theorem foldMask_length (cmf : String → RGB) (labels : List String)
    (u : List String) (cv : List RGB) (h : labels.length = cv.length) :
    (u.foldl (fun cv l => maskAssign cv labels l (cmf l)) cv).length = cv.length := by
  induction u generalizing cv with
  | nil => rfl
  | cons l u ih =>
    rw [List.foldl_cons]
    rw [ih (maskAssign cv labels l (cmf l))
      (by rw [maskAssign_length cv labels l (cmf l) h, h])]
    exact maskAssign_length cv labels l (cmf l) h

theorem foldMask_getElem? (cmf : String → RGB) (labels : List String)
    (u : List String) (cv : List RGB) (j : ℕ) (p : RGB) (lab : String)
    (hlen : labels.length = cv.length)
    (hcv : cv[j]? = some p) (hlab : labels[j]? = some lab) :
    (u.foldl (fun cv l => maskAssign cv labels l (cmf l)) cv)[j]? =
      some (if lab ∈ u then cmf lab else p) := by
  induction u generalizing cv p with
  | nil => simpa using hcv
  | cons l u ih =>
    rw [List.foldl_cons]
    have hmask := maskAssign_getElem? cv labels l (cmf l) j p lab hcv hlab
    have hlen' : labels.length = (maskAssign cv labels l (cmf l)).length := by
      rw [maskAssign_length cv labels l (cmf l) hlen]; exact hlen
    rw [ih (maskAssign cv labels l (cmf l)) (if lab = l then cmf l else p) hlen' hmask]
    by_cases h1 : lab ∈ u
    · simp [h1, List.mem_cons]
    · by_cases h2 : lab = l
      · subst h2
        simp [h1]
      · simp [h1, h2, List.mem_cons]

theorem apply_label_layer_length (cmf : String → RGB) (noise_label : String)
    (cv : List RGB) (labels : List String) (h : labels.length = cv.length) :
    (apply_label_layer cmf noise_label cv labels).length = cv.length :=
  foldMask_length cmf labels _ cv h

theorem apply_label_layer_getElem? (cmf : String → RGB) (noise_label : String)
    (cv : List RGB) (labels : List String) (j : ℕ) (p : RGB) (lab : String)
    (hlen : labels.length = cv.length) (hcv : cv[j]? = some p)
    (hlab : labels[j]? = some lab) :
    (apply_label_layer cmf noise_label cv labels)[j]? =
      some (if lab ≠ noise_label then cmf lab else p) := by
  rw [apply_label_layer, foldMask_getElem? cmf labels _ cv j p lab hlen hcv hlab]
  have hmem : lab ∈ labels := by
    obtain ⟨hlt, rfl⟩ := List.getElem?_eq_some.mp hlab
    exact List.getElem_mem hlt
  by_cases hn : lab = noise_label
  · subst hn
    simp [noise_not_mem_unique_non_noise_labels labels lab]
  · simp [hn, mem_unique_non_noise_labels.mpr ⟨hmem, hn⟩]

theorem interactive_color_vector_foldr (cmf : String → RGB) (nrgb : RGB) (n : ℕ)
    (layers : List (List String)) (noise_label : String) :
    interactive_color_vector cmf nrgb n layers noise_label =
      layers.foldr (fun labels cv => apply_label_layer cmf noise_label cv labels)
        (List.replicate n nrgb) :=
  List.foldl_reverse _ _ _

theorem foldr_layers_length (cmf : String → RGB) (noise_label : String)
    (layers : List (List String)) (n : ℕ) (init : List RGB)
    (hinit : init.length = n) (hlen : ∀ L ∈ layers, L.length = n) :
    (layers.foldr (fun labels cv => apply_label_layer cmf noise_label cv labels)
      init).length = n := by
  induction layers with
  | nil => exact hinit
  | cons L rest ih =>
    rw [List.foldr_cons]
    have hrest := ih (fun M hM => hlen M (List.mem_cons_of_mem L hM))
    rw [apply_label_layer_length cmf noise_label _ L
      (by rw [hrest, hlen L (List.mem_cons_self L rest)])]
    exact hrest

theorem interactive_color_vector_getElem? (cmf : String → RGB) (nrgb : RGB)
    (n : ℕ) (layers : List (List String)) (noise_label : String) (j : ℕ)
    (hlen : ∀ L ∈ layers, L.length = n) (hj : j < n) :
    (interactive_color_vector cmf nrgb n layers noise_label)[j]? =
      some
        (match first_non_noise_label layers noise_label j with
        | some l => cmf l
        | none => nrgb) := by
  rw [interactive_color_vector_foldr]
  induction layers with
  | nil =>
    rw [first_non_noise_label]
    simp [List.getElem?_eq_getElem, hj]
  | cons L rest ih =>
    rw [List.foldr_cons]
    have hrest_len :
        (rest.foldr (fun labels cv => apply_label_layer cmf noise_label cv labels)
          (List.replicate n nrgb)).length = n :=
      foldr_layers_length cmf noise_label rest n _ (List.length_replicate n nrgb)
        (fun M hM => hlen M (List.mem_cons_of_mem L hM))
    have hLlen : L.length = n := hlen L (List.mem_cons_self L rest)
    have hLj : L[j]? = some (L.get ⟨j, hLlen ▸ hj⟩) :=
      List.getElem?_eq_getElem (hLlen ▸ hj)
    have hcv := ih (fun M hM => hlen M (List.mem_cons_of_mem L hM))
    rw [apply_label_layer_getElem? cmf noise_label _ L j _ _
      (by rw [hrest_len, hLlen]) hcv hLj]
    conv_rhs => rw [first_non_noise_label, List.findSome?_cons, hLj]
    by_cases hn : L.get ⟨j, hLlen ▸ hj⟩ = noise_label <;>
      rw [List.get_eq_getElem] at hn <;>
      simp [hn, first_non_noise_label]

theorem zip_map_fst_snd {α β : Type} (ps : List (α × β)) :
    (ps.map Prod.fst).zip (ps.map Prod.snd) = ps := by
  induction ps with
  | nil => rfl
  | cons p ps ih => simp [ih]

theorem rowsWithLabel_drop_noise (coords : List Point) (labels : List String)
    (nl l : String) (hl : l ≠ nl) :
    rowsWithLabel coords labels l =
      rowsWithLabel (((coords.zip labels).filter (fun p => p.2 ≠ nl)).map Prod.fst)
        (((coords.zip labels).filter (fun p => p.2 ≠ nl)).map Prod.snd) l := by
  rw [rowsWithLabel, rowsWithLabel, zip_map_fst_snd, List.filter_filter]
  congr 1
  apply List.filter_congr
  intro p _
  by_cases hp : p.2 = l
  · simp [hp, hl]
  · simp [hp]

/-- Claim C1: for every create_plot call with a non-empty set of non-noise
labels, the label anchor positions passed to the renderer are computed per
unique non-noise label in np.unique's sorted order: the label list is
sorted and duplicate-free and holds exactly the observed non-noise labels;
the i-th anchor is the medoid of the rows carrying the i-th label when
use_medoids is true and their coordinatewise mean otherwise; and points
carrying the noise label contribute to no anchor, since each label's
selected rows are unchanged when all noise points are dropped. -/
theorem spec_c1 (libs : Libs) (coords : List Point) (labels : List String)
    (t st : Option String) (nl nc : String) (clt cla : Bool) (lww : ℕ)
    (lcm : Option (List (String × Color))) (fs : ℚ × ℚ) (dls : Bool) (dpi : ℚ)
    (fm dm : Bool) (hle : Option (List String)) (sh dep : ℚ) (um : Bool)
    (cm : Option String) (mca : Option (List Color)) (kwds : RenderPlotKwds)
    (_hne : unique_non_noise_labels labels nl ≠ []) :
    ((create_plot libs coords labels t st nl nc clt cla lww lcm fs dls dpi fm dm
        hle sh dep um cm mca kwds).label_locations.length =
      (unique_non_noise_labels labels nl).length) ∧
    (unique_non_noise_labels labels nl).Sorted (fun a b => strLe a b = true) ∧
    (unique_non_noise_labels labels nl).Nodup ∧
    (∀ l, l ∈ unique_non_noise_labels labels nl ↔ l ∈ labels ∧ l ≠ nl) ∧
    (∀ i : ℕ, ∀ hi : i < (unique_non_noise_labels labels nl).length,
      (create_plot libs coords labels t st nl nc clt cla lww lcm fs dls dpi fm
          dm hle sh dep um cm mca kwds).label_locations[i]? =
        some
          (if um then
            libs.medoid (rowsWithLabel coords labels
              ((unique_non_noise_labels labels nl).get ⟨i, hi⟩))
          else
            meanPoint (rowsWithLabel coords labels
              ((unique_non_noise_labels labels nl).get ⟨i, hi⟩)))) ∧
    (∀ l, l ≠ nl →
      rowsWithLabel coords labels l =
        rowsWithLabel
          (((coords.zip labels).filter (fun p => p.2 ≠ nl)).map Prod.fst)
          (((coords.zip labels).filter (fun p => p.2 ≠ nl)).map Prod.snd) l) := by
  have hproj :
      (create_plot libs coords labels t st nl nc clt cla lww lcm fs dls dpi fm
        dm hle sh dep um cm mca kwds).label_locations =
      label_locations_of libs coords labels nl um := rfl
  refine ⟨?_, sorted_unique_non_noise_labels labels nl,
    nodup_unique_non_noise_labels labels nl,
    fun l => mem_unique_non_noise_labels, ?_, ?_⟩
  · rw [hproj, label_locations_of]
    cases um <;> simp
  · intro i hi
    rw [hproj, label_locations_of]
    cases um
    · simp only [Bool.false_eq_true, if_false]
      rw [List.getElem?_map, List.getElem?_eq_getElem hi]
      simp [List.get_eq_getElem]
    · simp only [if_true]
      rw [List.getElem?_map, List.getElem?_eq_getElem hi]
      simp [List.get_eq_getElem]
  · intro l hl
    exact rowsWithLabel_drop_noise coords labels nl l hl

theorem spec_c1_witness :
    unique_non_noise_labels ["A", "Unlabelled"] "Unlabelled" ≠ [] ∧
    ((create_plot libs0 [((1 : ℚ), (2 : ℚ)), ((3 : ℚ), (4 : ℚ))]
        ["A", "Unlabelled"] none none "Unlabelled" "#999999" true false 16 none
        (12, 12) false 100 false false none 0 1 false none none
        {}).label_locations.length =
      (unique_non_noise_labels ["A", "Unlabelled"] "Unlabelled").length) := by
  have h := spec_c1 libs0 [((1 : ℚ), (2 : ℚ)), ((3 : ℚ), (4 : ℚ))]
    ["A", "Unlabelled"] none none "Unlabelled" "#999999" true false 16 none
    (12, 12) false 100 false false none 0 1 false none none {} (by decide)
  exact ⟨by decide, h.1⟩

/-- Claim C5: the palette-generation step of create_plot is a pure function
of the point positions, the anchor positions, the hue parameters and the
cmap: two runs on equal inputs produce equal palettes and hence equal
auto-generated label colour maps. -/
theorem spec_c5 (libs : Libs) (coords1 coords2 locs1 locs2 : List Point)
    (sh1 sh2 dep1 dep2 : ℚ) (cm1 cm2 : Option String)
    (labels1 labels2 : List String) (nl1 nl2 nc1 nc2 : String)
    (hc : coords1 = coords2) (hloc : locs1 = locs2) (hs : sh1 = sh2)
    (hd : dep1 = dep2) (hm : cm1 = cm2) (hlab : labels1 = labels2)
    (hnl : nl1 = nl2) (hnc : nc1 = nc2) :
    generated_palette libs coords1 locs1 sh1 dep1 cm1 =
      generated_palette libs coords2 locs2 sh2 dep2 cm2 ∧
    auto_label_color_map (generated_palette libs coords1 locs1 sh1 dep1 cm1)
        labels1 nl1 nc1 =
      auto_label_color_map (generated_palette libs coords2 locs2 sh2 dep2 cm2)
        labels2 nl2 nc2 := by
  subst hc hloc hs hd hm hlab hnl hnc
  exact ⟨rfl, rfl⟩

theorem spec_c5_witness :
    generated_palette libs0 [((0 : ℚ), (1 : ℚ))] [((2 : ℚ), (3 : ℚ))] 0 1 none =
      generated_palette libs0 [((0 : ℚ), (1 : ℚ))] [((2 : ℚ), (3 : ℚ))] 0 1 none ∧
    auto_label_color_map
        (generated_palette libs0 [((0 : ℚ), (1 : ℚ))] [((2 : ℚ), (3 : ℚ))] 0 1 none)
        ["A"] "Unlabelled" "#999999" =
      auto_label_color_map
        (generated_palette libs0 [((0 : ℚ), (1 : ℚ))] [((2 : ℚ), (3 : ℚ))] 0 1 none)
        ["A"] "Unlabelled" "#999999" :=
  spec_c5 libs0 [((0 : ℚ), (1 : ℚ))] [((0 : ℚ), (1 : ℚ))] [((2 : ℚ), (3 : ℚ))]
    [((2 : ℚ), (3 : ℚ))] 0 0 1 1 none none ["A"] ["A"] "Unlabelled" "Unlabelled"
    "#999999" "#999999" rfl rfl rfl rfl rfl rfl rfl rfl

/-- Claim C6: with color_label_text=True the label text colours passed to
render_plot are the deep (darkened) variant of the per-cluster base
colours when darkmode is false and the pastel variant when darkmode is
true, each a function of the base colour list alone; with
color_label_text=False the label_text_colors argument is None. -/
theorem spec_c6 (libs : Libs) (coords : List Point) (labels : List String)
    (t st : Option String) (nl nc : String) (clt cla : Bool) (lww : ℕ)
    (lcm : Option (List (String × Color))) (fs : ℚ × ℚ) (dls : Bool) (dpi : ℚ)
    (fm dm : Bool) (hle : Option (List String)) (sh dep : ℚ) (um : Bool)
    (cm : Option String) (mca : Option (List Color)) (kwds : RenderPlotKwds) :
    (create_plot libs coords labels t st nl nc clt cla lww lcm fs dls dpi fm dm
        hle sh dep um cm mca kwds).label_text_colors =
      (if clt then
        some
          ((if dm then libs.pastel_palette else libs.deep_palette)
            ((unique_non_noise_labels labels nl).map
              (fun x =>
                dictGet
                  (plot_label_color_map
                    (generated_palette libs coords
                      (label_locations_of libs coords labels nl um) sh dep cm)
                    lcm labels nl nc) x)))
      else none) := by
  cases clt <;> cases dm <;> rfl

/-- Claim C10: an explicit point_size or alpha in render_plot_kwds takes
precedence over the computed heuristics: the supplied value is passed to
render_plot unchanged and the key is removed from the keyword arguments
forwarded to render_plot, which are otherwise untouched. -/
theorem spec_c10 (libs : Libs) (coords : List Point) (labels : List String)
    (t st : Option String) (nl nc : String) (clt cla : Bool) (lww : ℕ)
    (lcm : Option (List (String × Color))) (fs : ℚ × ℚ) (dls : Bool) (dpi : ℚ)
    (fm dm : Bool) (hle : Option (List String)) (sh dep : ℚ) (um : Bool)
    (cm : Option String) (mca : Option (List Color)) (kwds : RenderPlotKwds)
    (ps al : ℝ) :
    (kwds.point_size = some ps →
      (create_plot libs coords labels t st nl nc clt cla lww lcm fs dls dpi fm
        dm hle sh dep um cm mca kwds).point_size = ps) ∧
    (kwds.alpha = some al →
      (create_plot libs coords labels t st nl nc clt cla lww lcm fs dls dpi fm
        dm hle sh dep um cm mca kwds).alpha = al) ∧
    (create_plot libs coords labels t st nl nc clt cla lww lcm fs dls dpi fm dm
        hle sh dep um cm mca kwds).kwds_rest.point_size = none ∧
    (create_plot libs coords labels t st nl nc clt cla lww lcm fs dls dpi fm dm
        hle sh dep um cm mca kwds).kwds_rest.alpha = none ∧
    (create_plot libs coords labels t st nl nc clt cla lww lcm fs dls dpi fm dm
        hle sh dep um cm mca kwds).kwds_rest.label_font_size =
      kwds.label_font_size ∧
    (create_plot libs coords labels t st nl nc clt cla lww lcm fs dls dpi fm dm
        hle sh dep um cm mca kwds).kwds_rest.others = kwds.others := by
  rcases kwds with ⟨pso, alo, lfs, oth⟩
  cases pso <;> cases alo <;>
    refine ⟨?_, ?_, ?_, ?_, ?_, ?_⟩ <;>
    first
      | rfl
      | (intro h; cases h; rfl)
      | (intro h; exact absurd h (by simp))

theorem spec_c10_witness :
    ((RenderPlotKwds.mk (some 7) (some (1 / 2)) none []).point_size = some 7 →
      (create_plot libs0 [((0 : ℚ), (0 : ℚ))] ["A"] none none "Unlabelled"
        "#999999" true false 16 none (12, 12) false 100 false false none 0 1
        false none none (RenderPlotKwds.mk (some 7) (some (1 / 2)) none
          [])).point_size = 7) ∧
    (create_plot libs0 [((0 : ℚ), (0 : ℚ))] ["A"] none none "Unlabelled"
        "#999999" true false 16 none (12, 12) false 100 false false none 0 1
        false none none (RenderPlotKwds.mk (some 7) (some (1 / 2)) none
          [])).point_size = 7 ∧
    (create_plot libs0 [((0 : ℚ), (0 : ℚ))] ["A"] none none "Unlabelled"
        "#999999" true false 16 none (12, 12) false 100 false false none 0 1
        false none none (RenderPlotKwds.mk (some 7) (some (1 / 2)) none
          [])).alpha = 1 / 2 ∧
    (create_plot libs0 [((0 : ℚ), (0 : ℚ))] ["A"] none none "Unlabelled"
        "#999999" true false 16 none (12, 12) false 100 false false none 0 1
        false none none (RenderPlotKwds.mk (some 7) (some (1 / 2)) none
          [])).kwds_rest.point_size = none := by
  have h := spec_c10 libs0 [((0 : ℚ), (0 : ℚ))] ["A"] none none "Unlabelled"
    "#999999" true false 16 none (12, 12) false 100 false false none 0 1 false
    none none (RenderPlotKwds.mk (some 7) (some (1 / 2)) none []) 7 (1 / 2)
  exact ⟨h.1, h.1 rfl, h.2.1 rfl, h.2.2.1⟩

theorem map_fst_map_pair (f : String → Color) (keys : List String) :
    (keys.map (fun x => (x, f x))).map Prod.fst = keys := by
  induction keys with
  | nil => rfl
  | cons k ks ih => simp [ih]

theorem plot_point_size_alpha_matplotlib (n : ℕ) (fs : ℚ × ℚ) (dpi : ℚ)
    (fm : Bool) (h : n < 100000 ∨ fm = true) :
    (plot_point_size_alpha n fs dpi fm).2 = npClip (magic_number n) 0.05 1 := by
  rw [plot_point_size_alpha, if_pos h]

theorem plot_point_size_alpha_datashader (n : ℕ) (fs : ℚ × ℚ) (dpi : ℚ)
    (fm : Bool) (h : ¬(n < 100000 ∨ fm = true)) :
    (plot_point_size_alpha n fs dpi fm).2 = 1 := by
  rw [plot_point_size_alpha, if_neg h]

/-- Claim C4: when render_plot_kwds supplies neither point_size nor alpha,
the heuristic point size and alpha passed to render_plot are the
closed-form function plot_point_size_alpha of the point count, figsize and
dpi alone; in the matplotlib branch (fewer than 100000 points or
force_matplotlib) the alpha lies in the clamp range 0.05 to 1 and the
magic_number size factor lies in the clamp range 0.05 to 64, and in the
datashader branch the alpha is exactly 1. -/
theorem spec_c4 (libs : Libs) (coords : List Point) (labels : List String)
    (t st : Option String) (nl nc : String) (clt cla : Bool) (lww : ℕ)
    (lcm : Option (List (String × Color))) (fs : ℚ × ℚ) (dls : Bool) (dpi : ℚ)
    (fm dm : Bool) (hle : Option (List String)) (sh dep : ℚ) (um : Bool)
    (cm : Option String) (mca : Option (List Color)) (kwds : RenderPlotKwds)
    (hps : kwds.point_size = none) (hal : kwds.alpha = none) :
    ((create_plot libs coords labels t st nl nc clt cla lww lcm fs dls dpi fm
        dm hle sh dep um cm mca kwds).point_size,
      (create_plot libs coords labels t st nl nc clt cla lww lcm fs dls dpi fm
        dm hle sh dep um cm mca kwds).alpha) =
      plot_point_size_alpha coords.length fs dpi fm ∧
    (coords.length < 100000 ∨ fm = true →
      (create_plot libs coords labels t st nl nc clt cla lww lcm fs dls dpi fm
          dm hle sh dep um cm mca kwds).alpha ∈ Set.Icc (0.05 : ℝ) 1 ∧
      magic_number coords.length ∈ Set.Icc (0.05 : ℝ) 64) ∧
    (¬(coords.length < 100000 ∨ fm = true) →
      (create_plot libs coords labels t st nl nc clt cla lww lcm fs dls dpi fm
        dm hle sh dep um cm mca kwds).alpha = 1) := by
  rcases kwds with ⟨pso, alo, lfs, oth⟩
  cases pso with
  | some v => simp at hps
  | none =>
    cases alo with
    | some v => simp at hal
    | none =>
      have hproj_ps :
          (create_plot libs coords labels t st nl nc clt cla lww lcm fs dls dpi
            fm dm hle sh dep um cm mca (RenderPlotKwds.mk none none lfs
              oth)).point_size =
          (plot_point_size_alpha coords.length fs dpi fm).1 := rfl
      have hproj_al :
          (create_plot libs coords labels t st nl nc clt cla lww lcm fs dls dpi
            fm dm hle sh dep um cm mca (RenderPlotKwds.mk none none lfs
              oth)).alpha =
          (plot_point_size_alpha coords.length fs dpi fm).2 := rfl
      refine ⟨?_, ?_, ?_⟩
      · rw [hproj_ps, hproj_al]
      · intro h
        constructor
        · rw [hproj_al, plot_point_size_alpha_matplotlib coords.length fs dpi fm h]
          exact npClip_mem_Icc _ _ _ (by norm_num)
        · rw [magic_number]
          exact npClip_mem_Icc _ _ _ (by norm_num)
      · intro h
        rw [hproj_al, plot_point_size_alpha_datashader coords.length fs dpi fm h]

theorem spec_c4_witness :
    (RenderPlotKwds.mk none none none [] : RenderPlotKwds).point_size = none ∧
    (([((0 : ℚ), (0 : ℚ))] : List Point).length < 100000 ∨ false = true) ∧
    ((create_plot libs0 [((0 : ℚ), (0 : ℚ))] ["A"] none none "Unlabelled"
        "#999999" true false 16 none (12, 12) false 100 false false none 0 1
        false none none (RenderPlotKwds.mk none none none [])).alpha ∈
      Set.Icc (0.05 : ℝ) 1 ∧
      magic_number ([((0 : ℚ), (0 : ℚ))] : List Point).length ∈
        Set.Icc (0.05 : ℝ) 64) := by
  have h := spec_c4 libs0 [((0 : ℚ), (0 : ℚ))] ["A"] none none "Unlabelled"
    "#999999" true false 16 none (12, 12) false 100 false false none 0 1 false
    none none (RenderPlotKwds.mk none none none []) rfl rfl
  exact ⟨rfl, Or.inl (by norm_num), h.2.1 (Or.inl (by norm_num))⟩

/-- Claim C2: with label_color_map=None the auto-generated label colour map
is total over the observed labels: its key list is exactly np.unique of
the labels, each unique non-noise label is assigned the palette entry at
its index among the sorted unique non-noise labels, and the noise label,
when observed, is assigned the noise colour; and the per-point colour list
has one entry per sample, the noise colour for noise points and the
point's cluster colour, the map's entry for its label, otherwise. -/
theorem spec_c2 (libs : Libs) (coords : List Point) (labels : List String)
    (t st : Option String) (nl nc : String) (clt cla : Bool) (lww : ℕ)
    (fs : ℚ × ℚ) (dls : Bool) (dpi : ℚ) (fm dm : Bool)
    (hle : Option (List String)) (sh dep : ℚ) (um : Bool) (cm : Option String)
    (kwds : RenderPlotKwds)
    (hlen :
      (generated_palette libs coords
        (label_locations_of libs coords labels nl um) sh dep cm).length =
      (unique_non_noise_labels labels nl).length) :
    ((auto_label_color_map
        (generated_palette libs coords
          (label_locations_of libs coords labels nl um) sh dep cm)
        labels nl nc).map Prod.fst = npUnique labels) ∧
    (∀ l ∈ unique_non_noise_labels labels nl, ∃ i : ℕ,
      (unique_non_noise_labels labels nl)[i]? = some l ∧
      List.lookup l
          (auto_label_color_map
            (generated_palette libs coords
              (label_locations_of libs coords labels nl um) sh dep cm)
            labels nl nc) =
        (generated_palette libs coords
          (label_locations_of libs coords labels nl um) sh dep cm)[i]?) ∧
    (nl ∈ labels →
      List.lookup nl
          (auto_label_color_map
            (generated_palette libs coords
              (label_locations_of libs coords labels nl um) sh dep cm)
            labels nl nc) = some nc) ∧
    ((create_plot libs coords labels t st nl nc clt cla lww none fs dls dpi fm
        dm hle sh dep um cm none kwds).color_list.length = labels.length) ∧
    (∀ j : ℕ, ∀ hj : j < labels.length,
      (create_plot libs coords labels t st nl nc clt cla lww none fs dls dpi fm
          dm hle sh dep um cm none kwds).color_list[j]? =
        some
          (if labels.get ⟨j, hj⟩ = nl then nc
          else
            dictGet
              (auto_label_color_map
                (generated_palette libs coords
                  (label_locations_of libs coords labels nl um) sh dep cm)
                labels nl nc)
              (labels.get ⟨j, hj⟩))) := by
  have hproj :
      (create_plot libs coords labels t st nl nc clt cla lww none fs dls dpi fm
        dm hle sh dep um cm none kwds).color_list =
      labels.map
        (fun x =>
          auto_label_color
            (generated_palette libs coords
              (label_locations_of libs coords labels nl um) sh dep cm)
            (unique_non_noise_labels labels nl) nc x) := rfl
  have hlookup : ∀ x ∈ npUnique labels,
      List.lookup x
          (auto_label_color_map
            (generated_palette libs coords
              (label_locations_of libs coords labels nl um) sh dep cm)
            labels nl nc) =
        some
          (auto_label_color
            (generated_palette libs coords
              (label_locations_of libs coords labels nl um) sh dep cm)
            (unique_non_noise_labels labels nl) nc x) := by
    intro x hx
    rw [auto_label_color_map, lookup_map_pair, if_pos hx]
  refine ⟨?_, ?_, ?_, ?_, ?_⟩
  · rw [auto_label_color_map]
    exact map_fst_map_pair _ _
  · intro l hl
    obtain ⟨i, hget, heq⟩ :=
      auto_label_color_of_mem
        (generated_palette libs coords
          (label_locations_of libs coords labels nl um) sh dep cm)
        (unique_non_noise_labels labels nl) nc l hl hlen
    refine ⟨i, hget, ?_⟩
    rw [hlookup l (mem_npUnique.mpr (mem_unique_non_noise_labels.mp hl).1)]
    exact heq
  · intro hnl
    rw [hlookup nl (mem_npUnique.mpr hnl)]
    rw [auto_label_color_of_not_mem _ _ _ _
      (noise_not_mem_unique_non_noise_labels labels nl)]
  · rw [hproj, List.length_map]
  · intro j hj
    rw [hproj, List.getElem?_map, List.getElem?_eq_getElem hj]
    simp only [Option.map_some', List.get_eq_getElem]
    congr 1
    by_cases hx : labels[j] = nl
    · rw [if_pos hx, hx]
      exact auto_label_color_of_not_mem _ _ _ _
        (noise_not_mem_unique_non_noise_labels labels nl)
    · rw [if_neg hx]
      have hmem : labels[j] ∈ unique_non_noise_labels labels nl :=
        mem_unique_non_noise_labels.mpr ⟨List.getElem_mem hj, hx⟩
      rw [dictGet,
        hlookup (labels[j]) (mem_npUnique.mpr (List.getElem_mem hj))]
      rfl

theorem spec_c2_witness :
    (generated_palette libs0 [((1 : ℚ), (2 : ℚ)), ((3 : ℚ), (4 : ℚ))]
      (label_locations_of libs0 [((1 : ℚ), (2 : ℚ)), ((3 : ℚ), (4 : ℚ))]
        ["A", "Unlabelled"] "Unlabelled" false) 0 1 none).length =
      (unique_non_noise_labels ["A", "Unlabelled"] "Unlabelled").length ∧
    List.lookup "Unlabelled"
        (auto_label_color_map
          (generated_palette libs0 [((1 : ℚ), (2 : ℚ)), ((3 : ℚ), (4 : ℚ))]
            (label_locations_of libs0 [((1 : ℚ), (2 : ℚ)), ((3 : ℚ), (4 : ℚ))]
              ["A", "Unlabelled"] "Unlabelled" false) 0 1 none)
          ["A", "Unlabelled"] "Unlabelled" "#999999") = some "#999999" := by
  have h := spec_c2 libs0 [((1 : ℚ), (2 : ℚ)), ((3 : ℚ), (4 : ℚ))]
    ["A", "Unlabelled"] none none "Unlabelled" "#999999" true false 16 (12, 12)
    false 100 false false none 0 1 false none {} (by decide)
  exact ⟨by decide, h.2.2.1 (by decide)⟩

theorem pyDictGet_error (m : List (String × Color)) (k e : String)
    (h : pyDictGet m k = Except.error e) :
    e = k ∧ List.lookup k m = none := by
  rw [pyDictGet] at h
  cases hk : List.lookup k m with
  | some v => rw [hk] at h; cases h
  | none =>
    rw [hk] at h
    injection h with he
    exact ⟨he.symm, rfl⟩

/-- Claim C7: neither entry point performs its own input validation: the
only failure points of the embedded colour computations are the downstream
Python dict accesses themselves, every raised error carries a key that is
genuinely missing from the user-supplied colour map, and whenever every
observed non-noise label is present the computation succeeds and agrees
with the colour list create_plot passes on. -/
theorem spec_c7 (libs : Libs) (coords : List Point) (labels : List String)
    (row_labels : List String) (t st : Option String) (nl nc : String)
    (clt cla : Bool) (lww : ℕ) (fs : ℚ × ℚ) (dls : Bool) (dpi : ℚ)
    (fm dm : Bool) (hle : Option (List String)) (sh dep : ℚ) (um : Bool)
    (cm : Option String) (kwds : RenderPlotKwds)
    (m : List (String × Color)) (e1 e2 e3 : String) :
    (color_list_checked m labels nl nc = Except.error e1 →
      e1 ∈ labels ∧ e1 ≠ nl ∧ List.lookup e1 m = none) ∧
    (label_colors_checked m labels nl = Except.error e2 →
      e2 ∈ labels ∧ e2 ≠ nl ∧ List.lookup e2 m = none) ∧
    (interactive_user_colors_checked m row_labels = Except.error e3 →
      e3 ∈ row_labels ∧ List.lookup e3 m = none) ∧
    ((∀ l ∈ labels, l ≠ nl → (List.lookup l m).isSome) →
      color_list_checked m labels nl nc =
        Except.ok
          ((create_plot libs coords labels t st nl nc clt cla lww (some m) fs
            dls dpi fm dm hle sh dep um cm none kwds).color_list)) := by
  refine ⟨?_, ?_, ?_, ?_⟩
  · intro h
    obtain ⟨x, hx, hfx⟩ := mapExcept_error _ _ _ h
    by_cases hxnl : x = nl
    · rw [if_neg (by simpa using hxnl)] at hfx
      cases hfx
    · rw [if_pos hxnl] at hfx
      obtain ⟨rfl, hnone⟩ := pyDictGet_error m x e1 hfx
      exact ⟨hx, hxnl, hnone⟩
  · intro h
    obtain ⟨x, hx, hfx⟩ := mapExcept_error _ _ _ h
    obtain ⟨hmem, hxnl⟩ := mem_unique_non_noise_labels.mp hx
    obtain ⟨rfl, hnone⟩ := pyDictGet_error m x e2 hfx
    exact ⟨hmem, hxnl, hnone⟩
  · intro h
    obtain ⟨x, hx, hfx⟩ := mapExcept_error _ _ _ h
    obtain ⟨rfl, hnone⟩ := pyDictGet_error m x e3 hfx
    exact ⟨hx, hnone⟩
  · intro hcov
    have hproj :
        (create_plot libs coords labels t st nl nc clt cla lww (some m) fs dls
          dpi fm dm hle sh dep um cm none kwds).color_list =
        labels.map (fun x => if x ≠ nl then dictGet m x else nc) := rfl
    rw [hproj]
    apply mapExcept_ok_of_forall
    intro x hx
    by_cases hxnl : x = nl
    · rw [if_neg (by simpa using hxnl), if_neg (by simpa using hxnl)]
    · rw [if_pos hxnl, if_pos hxnl]
      obtain ⟨v, hv⟩ := Option.isSome_iff_exists.mp (hcov x hx hxnl)
      rw [pyDictGet, hv, dictGet, hv]
      rfl

theorem spec_c7_witness :
    color_list_checked [("B", "#ffffff")] ["A"] "Unlabelled" "#999999" =
      Except.error "A" ∧
    ("A" ∈ ["A"] ∧ "A" ≠ "Unlabelled" ∧
      List.lookup "A" [("B", "#ffffff")] = none) := by
  have h := spec_c7 libs0 [((0 : ℚ), (0 : ℚ))] ["A"] [] none none "Unlabelled"
    "#999999" true false 16 (12, 12) false 100 false false none 0 1 false none
    {} [("B", "#ffffff")] "A" "A" "A"
  exact ⟨rfl, h.1 rfl⟩

/-- Claim C3 counterexample: a create_interactive_plot call with zero label
layers returns None (create_plots.py line 423-424), not an
InteractiveFigure, so the two entry points do not always return a
figure/axes pair or a wrapped HTML figure. -/
theorem spec_c3_counterexample :
    create_interactive_plot ilibs0 [((0 : ℚ), (0 : ℚ))] [] none true
      "Unlabelled" "#999999" true 16 none "100%" 800 false 0 1 none none none
      false false true (1 / 10) = none := rfl

/-- Claim C3 as amended: create_plot always returns the value render_plot
produces on its argument record, and create_interactive_plot returns an
InteractiveFigure wrapping the rendered HTML string whenever at least one
label layer is supplied; with zero label layers it returns None instead. -/
theorem spec_c3 {α : Type} (render_plot : RenderPlotArgs → α) (libs : Libs)
    (coords : List Point) (labels : List String) (t st : Option String)
    (nl nc : String) (clt cla : Bool) (lww : ℕ)
    (lcm : Option (List (String × Color))) (fs : ℚ × ℚ) (dls : Bool) (dpi : ℚ)
    (fm dm : Bool) (hle : Option (List String)) (sh dep : ℚ) (um : Bool)
    (cm : Option String) (mca : Option (List Color)) (kwds : RenderPlotKwds)
    (ilibs : ILibs) (icoords : List Point) (layers : List (List String))
    (hover : Option (List String)) (inline : Bool) (inl inc : String)
    (iclt : Bool) (ilww : ℕ) (ilcm : Option (List (String × Color)))
    (w : String) (ht : ℕ) (idm : Bool) (ish idep : ℚ) (icm : Option String)
    (msa : Option (List ℚ)) (imca : Option (List Color)) (ium : Bool)
    (cbp ccb : Bool) (pa : ℚ) (hlayers : layers ≠ []) :
    create_plot_run render_plot libs coords labels t st nl nc clt cla lww lcm
        fs dls dpi fm dm hle sh dep um cm mca kwds =
      render_plot
        (create_plot libs coords labels t st nl nc clt cla lww lcm fs dls dpi
          fm dm hle sh dep um cm mca kwds) ∧
    create_interactive_plot ilibs icoords layers hover inline inl inc iclt ilww
        ilcm w ht idm ish idep icm msa imca ium cbp ccb pa =
      some
        { html :=
            ilibs.render_html
              (interactive_point_dataframe icoords hover msa
                (interactive_color_vector_of ilibs.to_rgb imca inc
                  icoords.length layers inl
                  (interactive_color_map ilibs.toLibs ilcm icoords
                    (interactive_label_rows ilibs.toLibs layers icoords inl ium
                      cbp pa)
                    ish idep icm)))
              (interactive_label_dataframe
                (interactive_label_rows ilibs.toLibs layers icoords inl ium cbp
                  pa)
                (interactive_text_palette ilibs.toLibs ilcm icoords
                  (interactive_label_rows ilibs.toLibs layers icoords inl ium
                    cbp pa)
                  ish idep icm idm)
                iclt ccb idm ilww)
              inline iclt idm
          width := w
          height := ht } := by
  cases layers with
  | nil => exact absurd rfl hlayers
  | cons L rest => exact ⟨rfl, rfl⟩

theorem spec_c3_witness :
    ([["A"]] : List (List String)) ≠ [] ∧
    (create_interactive_plot ilibs0 [((0 : ℚ), (0 : ℚ))] [["A"]] none true
      "Unlabelled" "#999999" true 16 none "100%" 800 false 0 1 none none none
      false false true (1 / 10)).isSome = true := by
  have h := spec_c3 (fun a => a) libs0 [] [] none none "" "" true true 0 none
    (0, 0) false 0 false false none 0 0 false none none {} ilibs0
    [((0 : ℚ), (0 : ℚ))] [["A"]] none true "Unlabelled" "#999999" true 16 none
    "100%" 800 false 0 1 none none none false false true (1 / 10) (by decide)
  refine ⟨by decide, ?_⟩
  rw [h.2]
  rfl

/-- Claim C8: in create_interactive_plot with marker_color_array=None, every
point's marker colour channels in the point dataframe equal the colour-map
colour of the point's label in the first (finest) label layer in which it
is non-noise, because the layers are applied in reversed order so that
earlier layers overwrite; a point that is noise in every layer keeps the
noise colour. -/
theorem spec_c8 (trgb : Color → ℚ × ℚ × ℚ) (cmap : List (String × RGB))
    (nc : String) (coords : List Point) (hover : Option (List String))
    (msa : Option (List ℚ)) (layers : List (List String)) (nl : String)
    (_hlayers : layers ≠ []) (hlen : ∀ L ∈ layers, L.length = coords.length)
    (j : ℕ) (hj : j < coords.length) :
    ((interactive_point_dataframe coords hover msa
        (interactive_color_vector_of trgb none nc coords.length layers nl
          cmap)).r[j]? =
      some
        (match first_non_noise_label layers nl j with
          | some l => rgbDictGet cmap l
          | none => to_rgb255 trgb nc).1) ∧
    ((interactive_point_dataframe coords hover msa
        (interactive_color_vector_of trgb none nc coords.length layers nl
          cmap)).g[j]? =
      some
        (match first_non_noise_label layers nl j with
          | some l => rgbDictGet cmap l
          | none => to_rgb255 trgb nc).2.1) ∧
    ((interactive_point_dataframe coords hover msa
        (interactive_color_vector_of trgb none nc coords.length layers nl
          cmap)).b[j]? =
      some
        (match first_non_noise_label layers nl j with
          | some l => rgbDictGet cmap l
          | none => to_rgb255 trgb nc).2.2) ∧
    (interactive_point_dataframe coords hover msa
      (interactive_color_vector_of trgb none nc coords.length layers nl
        cmap)).a = 180 := by
  have hcv :
      interactive_color_vector_of trgb none nc coords.length layers nl cmap =
        interactive_color_vector (fun l => rgbDictGet cmap l)
          (to_rgb255 trgb nc) coords.length layers nl := rfl
  have hget :=
    interactive_color_vector_getElem? (fun l => rgbDictGet cmap l)
      (to_rgb255 trgb nc) coords.length layers nl j hlen hj
  refine ⟨?_, ?_, ?_, rfl⟩
  · show ((interactive_color_vector_of trgb none nc coords.length layers nl
      cmap).map (fun c => c.1))[j]? = _
    rw [hcv, List.getElem?_map, hget, Option.map_some']
  · show ((interactive_color_vector_of trgb none nc coords.length layers nl
      cmap).map (fun c => c.2.1))[j]? = _
    rw [hcv, List.getElem?_map, hget, Option.map_some']
  · show ((interactive_color_vector_of trgb none nc coords.length layers nl
      cmap).map (fun c => c.2.2))[j]? = _
    rw [hcv, List.getElem?_map, hget, Option.map_some']

theorem spec_c8_witness :
    ([["A"]] : List (List String)) ≠ [] ∧
    (∀ L ∈ [["A"]], L.length = ([((0 : ℚ), (0 : ℚ))] : List Point).length) ∧
    (interactive_point_dataframe [((0 : ℚ), (0 : ℚ))] none none
        (interactive_color_vector_of libs0.to_rgb none "#999999"
          ([((0 : ℚ), (0 : ℚ))] : List Point).length [["A"]] "Unlabelled"
          [("A", (1, 2, 3))])).r[0]? =
      some
        (match first_non_noise_label [["A"]] "Unlabelled" 0 with
          | some l => rgbDictGet [("A", (1, 2, 3))] l
          | none => to_rgb255 libs0.to_rgb "#999999").1 := by
  have h := spec_c8 libs0.to_rgb [("A", (1, 2, 3))] "#999999"
    [((0 : ℚ), (0 : ℚ))] none none [["A"]] "Unlabelled" (by decide)
    (by decide) 0 (by decide)
  exact ⟨by decide, by decide, h.1⟩

/-- Claim C9 counterexample: the noise label can appear among the wrapped
label texts: with noise label "Unlabelled" and the distinct non-noise
label "Unlabelled " (trailing blank), text wrapping drops the line's
trailing whitespace chunk and the wrapped label text list contains exactly
the string "Unlabelled". -/
theorem spec_c9_counterexample :
    "Unlabelled " ≠ "Unlabelled" ∧
    "Unlabelled" ∈
      (create_plot libs0 [((0 : ℚ), (0 : ℚ))] ["Unlabelled "] none none
        "Unlabelled" "#999999" true false 16 none (12, 12) false 100 false
        false none 0 1 false none none {}).label_text :=
  ⟨by decide, by decide⟩

/-- Claim C9 as amended: every label-level output of create_plot is indexed
by, and has length equal to, the unique non-noise labels, which never
include the noise label itself: the wrapped label texts are the wrapped
forms of exactly those labels, and the anchor locations, highlight
colours, size adjustments, and (when enabled) text and arrow colours all
have one entry per unique non-noise label.  (A wrapped form of a distinct
non-noise label may still coincide textually with the noise label, as the
counterexample's trailing-blank label shows.) -/
theorem spec_c9 (libs : Libs) (coords : List Point) (labels : List String)
    (t st : Option String) (nl nc : String) (clt cla : Bool) (lww : ℕ)
    (lcm : Option (List (String × Color))) (fs : ℚ × ℚ) (dls : Bool) (dpi : ℚ)
    (fm dm : Bool) (hle : Option (List String)) (sh dep : ℚ) (um : Bool)
    (cm : Option String) (mca : Option (List Color)) (kwds : RenderPlotKwds)
    (hdeep : ∀ cs, (libs.deep_palette cs).length = cs.length)
    (hpastel : ∀ cs, (libs.pastel_palette cs).length = cs.length) :
    nl ∉ unique_non_noise_labels labels nl ∧
    (create_plot libs coords labels t st nl nc clt cla lww lcm fs dls dpi fm dm
        hle sh dep um cm mca kwds).label_text =
      (unique_non_noise_labels labels nl).map (textwrapFill lww) ∧
    (create_plot libs coords labels t st nl nc clt cla lww lcm fs dls dpi fm dm
        hle sh dep um cm mca kwds).label_text.length =
      (unique_non_noise_labels labels nl).length ∧
    (create_plot libs coords labels t st nl nc clt cla lww lcm fs dls dpi fm dm
        hle sh dep um cm mca kwds).label_locations.length =
      (unique_non_noise_labels labels nl).length ∧
    (create_plot libs coords labels t st nl nc clt cla lww lcm fs dls dpi fm dm
        hle sh dep um cm mca kwds).highlight_colors.length =
      (unique_non_noise_labels labels nl).length ∧
    (create_plot libs coords labels t st nl nc clt cla lww lcm fs dls dpi fm dm
        hle sh dep um cm mca kwds).label_size_adjustments.length =
      (unique_non_noise_labels labels nl).length ∧
    (clt = true →
      ∃ tc, (create_plot libs coords labels t st nl nc clt cla lww lcm fs dls
          dpi fm dm hle sh dep um cm mca kwds).label_text_colors = some tc ∧
        tc.length = (unique_non_noise_labels labels nl).length) ∧
    (cla = true →
      ∃ ac, (create_plot libs coords labels t st nl nc clt cla lww lcm fs dls
          dpi fm dm hle sh dep um cm mca kwds).label_arrow_colors = some ac ∧
        ac.length = (unique_non_noise_labels labels nl).length) := by
  refine ⟨noise_not_mem_unique_non_noise_labels labels nl, rfl, ?_, ?_, ?_, ?_,
    ?_, ?_⟩
  · show ((unique_non_noise_labels labels nl).map (textwrapFill lww)).length = _
    rw [List.length_map]
  · show (label_locations_of libs coords labels nl um).length = _
    rw [label_locations_of]
    cases um <;> simp
  · show ((unique_non_noise_labels labels nl).map _).length = _
    rw [List.length_map]
  · show (label_size_adjustments_of labels nl dls fs kwds).length = _
    rw [label_size_adjustments_of]
    cases dls <;> simp
  · intro h
    subst h
    cases dm
    · exact ⟨_, rfl, by rw [hdeep, List.length_map]⟩
    · exact ⟨_, rfl, by rw [hpastel, List.length_map]⟩
  · intro h
    subst h
    exact ⟨_, rfl, by rw [List.length_map]⟩

theorem spec_c9_witness :
    (∀ cs, (libs0.deep_palette cs).length = cs.length) ∧
    "Unlabelled" ∉ unique_non_noise_labels ["A", "Unlabelled"] "Unlabelled" ∧
    (create_plot libs0 [((0 : ℚ), (0 : ℚ))] ["A", "Unlabelled"] none none
        "Unlabelled" "#999999" true false 16 none (12, 12) false 100 false
        false none 0 1 false none none {}).label_text.length =
      (unique_non_noise_labels ["A", "Unlabelled"] "Unlabelled").length := by
  have h := spec_c9 libs0 [((0 : ℚ), (0 : ℚ))] ["A", "Unlabelled"] none none
    "Unlabelled" "#999999" true false 16 none (12, 12) false 100 false false
    none 0 1 false none none {} (fun cs => rfl) (fun cs => rfl)
  exact ⟨fun cs => rfl, h.1, h.2.2.1⟩

end DataMapPlot
